import Mathlib

/-!
Shallow embedding of the `dkostenko/plantuml` Go repository: the PlantUML
rendering client (`manager.go`) and the HTTP request handler
(`api/manager.go`).  Go strings are modelled as lists of characters and the
remote renderer as an oracle giving the outcome of each HTTP call.
-/

namespace Plantuml

/-- Go strings, modelled as lists of characters. -/
abbrev GoStr := List Char

/-- Go `strings.Split(s, sep)` for a one-character separator: the list of
pieces between occurrences of `sep`; the empty string yields one empty
piece, as in Go. -/
def splitOnChar (sep : Char) : GoStr → List GoStr
  | [] => [[]]
  | c :: rest =>
    if c == sep then [] :: splitOnChar sep rest
    else
      match splitOnChar sep rest with
      | [] => [[c]]
      | p :: ps => (c :: p) :: ps

/-- Go `strings.TrimLeft(s, cutset)`: drop leading characters that belong to
the cutset (a character set, not a literal). -/
def trimLeftCutset (cutset : GoStr) (s : GoStr) : GoStr :=
  s.dropWhile (fun c => cutset.contains c)

/-- Go `strings.TrimRight(s, cutset)`: drop trailing characters that belong
to the cutset. -/
def trimRightCutset (cutset : GoStr) (s : GoStr) : GoStr :=
  (s.reverse.dropWhile (fun c => cutset.contains c)).reverse

/-- Go `strings.Trim(s, cutset)`: trim the cutset characters on both sides. -/
def goTrim (cutset : GoStr) (s : GoStr) : GoStr :=
  trimRightCutset cutset (trimLeftCutset cutset s)

/-- Helper for `goAtoi`: the value of a digit string, or `none` if any
character is not a decimal digit. -/
def digitsToNatAux : GoStr → Nat → Option Nat
  | [], acc => some acc
  | c :: rest, acc =>
    if '0' ≤ c ∧ c ≤ '9' then digitsToNatAux rest (acc * 10 + (c.toNat - '0'.toNat))
    else none

/-- The value of a nonempty all-digit string, else `none`. -/
def digitsToNat (s : GoStr) : Option Nat :=
  match s with
  | [] => none
  | _ => digitsToNatAux s 0

/-- Go `strconv.Atoi`: optional sign, then at least one decimal digit and
nothing else; errors (here `none`) on any other shape and on 64-bit `int`
overflow. -/
def goAtoi (s : GoStr) : Option Int :=
  match s with
  | '-' :: rest =>
    match digitsToNat rest with
    | none => none
    | some n => if n ≤ 2 ^ 63 then some (-(n : Int)) else none
  | '+' :: rest =>
    match digitsToNat rest with
    | none => none
    | some n => if n < 2 ^ 63 then some (n : Int) else none
  | _ =>
    match digitsToNat s with
    | none => none
    | some n => if n < 2 ^ 63 then some (n : Int) else none

/-- `SyntaxError` of `manager.go`: raw renderer diagnostic, 1-based line
number (`int64`), and the offending line text. -/
structure SyntaxError where
  rawError : GoStr
  lineNumber : Int
  lineWithError : GoStr
deriving DecidableEq

/-- The marker recognized at the start of the first line of a syntax
diagnostic body. -/
def markerFromString : GoStr := "[From string (line ".toList

/-- The transformation `manager.go` applies to the last line of the
diagnostic: `strings.TrimLeft(lastLine, " Syntax error: ")` — note this is a
character-set trim, not a literal text trim. -/
def trimmedLastLine (lastLine : GoStr) : GoStr :=
  trimLeftCutset " Syntax error: ".toList lastLine

/-- The text `manager.go` feeds to `strconv.Atoi`: the first line trimmed on
the left by the cutset `"[From string (line "` and on the right by the
cutset `") ]"`. -/
def extractLineNumberText (firstLine : GoStr) : GoStr :=
  trimRightCutset ") ]".toList (trimLeftCutset "[From string (line ".toList firstLine)

/-- `getErrorLineNumber` of `manager.go`: split the plaintext rendering on
newlines, look at the first and last lines (the Go locals `firstLine` and
`lastLine` are inlined here), and build a `SyntaxError` when the first line
starts with the marker (line number 0 when the trimmed text does not parse
as an integer). -/
def getErrorLineNumber (diagramAsTXT : GoStr) : Option SyntaxError :=
  if markerFromString.isPrefixOf ((splitOnChar '\n' diagramAsTXT).headD []) then
    match goAtoi (extractLineNumberText ((splitOnChar '\n' diagramAsTXT).headD [])) with
    | none =>
      some ⟨diagramAsTXT, 0, trimmedLastLine ((splitOnChar '\n' diagramAsTXT).getLastD [])⟩
    | some n =>
      some ⟨diagramAsTXT, n, trimmedLastLine ((splitOnChar '\n' diagramAsTXT).getLastD [])⟩
  else none

namespace NetUrl

/-! Model of the accept/reject decision of Go `net/url.ParseRequestURI`,
i.e. `parse(rawURL, viaRequest := true)`: each `Bool`-valued function below
returns `true` when the corresponding Go function returns without error. -/

/-- Go `net/url` control-byte test: `b < ' ' || b == 0x7f`. -/
def isCTLByte (c : Char) : Bool := c.toNat < 0x20 || c.toNat == 0x7f

/-- Go `stringContainsCTLByte`. -/
def containsCTLByte (s : GoStr) : Bool := s.any isCTLByte

/-- ASCII letter, as in `getScheme`. -/
def isSchemeAlpha (c : Char) : Bool := ('a' ≤ c && c ≤ 'z') || ('A' ≤ c && c ≤ 'Z')

/-- ASCII decimal digit. -/
def isDigit09 (c : Char) : Bool := '0' ≤ c && c ≤ '9'

/-- Loop of Go `getScheme`, scanning character `i` of the original URL:
letters continue; digits and `+ - .` continue unless first; `:` ends the
scheme (error when first); anything else means no scheme. -/
def getSchemeLoop (orig : GoStr) : Nat → GoStr → Option (GoStr × GoStr)
  | _, [] => some ([], orig)
  | i, c :: rest =>
    if isSchemeAlpha c then getSchemeLoop orig (i + 1) rest
    else if isDigit09 c || c == '+' || c == '-' || c == '.' then
      if i == 0 then some ([], orig) else getSchemeLoop orig (i + 1) rest
    else if c == ':' then
      if i == 0 then none else some (orig.take i, orig.drop (i + 1))
    else some ([], orig)

/-- Go `getScheme`: split a possible leading scheme off the URL; `none`
models the "missing protocol scheme" error. -/
def getScheme (rawURL : GoStr) : Option (GoStr × GoStr) := getSchemeLoop rawURL 0 rawURL

/-- Go `strings.Cut` on one character: the parts before and after the first
occurrence (the remainder is unused when the separator is absent). -/
def cutAtChar (sep : Char) : GoStr → GoStr × GoStr
  | [] => ([], [])
  | c :: rest =>
    if c == sep then ([], rest)
    else
      let p := cutAtChar sep rest
      (c :: p.1, p.2)

/-- The query split in `parse`: when the rest ends in a lone `?` (the
ForceQuery case) drop it, otherwise keep what precedes the first `?`.  The
raw query itself is never validated, so only the prefix matters here. -/
def restAfterQuerySplit (rest : GoStr) : GoStr :=
  if rest ≠ [] && rest.getLastD ' ' == '?' && !(rest.dropLast.contains '?') then rest.dropLast
  else (cutAtChar '?' rest).1

/-- The escaping mode, as far as `ParseRequestURI` exercises it. -/
inductive Encoding where
  | path
  | userPassword
  | host
  | zone
deriving DecidableEq

/-- The extra characters `shouldEscape` admits unescaped in a host. -/
def hostSafeExtra : GoStr := "!$&\x27()*+,;=:[]<>\"".toList

/-- Go `shouldEscape(c, mode)` for the modes above: alphanumerics and
`- _ . ~` never need escaping; hosts also admit `hostSafeExtra`; of the
reserved characters, a path must escape `?`, userinfo must escape
`@ / ? :`, and hosts fall through to `true`. -/
def shouldEscape (c : Char) (mode : Encoding) : Bool :=
  if isSchemeAlpha c || isDigit09 c then false
  else if (mode == .host || mode == .zone) && hostSafeExtra.contains c then false
  else if ("-_.~".toList).contains c then false
  else if ("$&+,/:;=?@".toList).contains c then
    match mode with
    | .path => c == '?'
    | .userPassword => c == '@' || c == '/' || c == '?' || c == ':'
    | _ => true
  else true

/-- Hexadecimal digit test, Go `ishex`. -/
def ishexChar (c : Char) : Bool :=
  isDigit09 c || ('a' ≤ c && c ≤ 'f') || ('A' ≤ c && c ≤ 'F')

/-- Hexadecimal digit value, Go `unhex`. -/
def unhexChar (c : Char) : Nat :=
  if isDigit09 c then c.toNat - '0'.toNat
  else if 'a' ≤ c && c ≤ 'f' then c.toNat - 'a'.toNat + 10
  else if 'A' ≤ c && c ≤ 'F' then c.toNat - 'A'.toNat + 10
  else 0

/-- The validation half of Go `unescape(s, mode)`: every `%` must head a
valid two-digit escape (in a host, only `%25` or bytes ≥ 0x80; in a zone,
only `%25`, an escaped space, or a byte a host may carry escaped), and a
plain host/zone byte below 0x80 must not require escaping. -/
def unescapeOk (mode : Encoding) : GoStr → Bool
  | [] => true
  | '%' :: rest =>
    match rest with
    | a :: b :: rest2 =>
      if !(ishexChar a && ishexChar b) then false
      else if mode == .host && unhexChar a < 8 && !(a == '2' && b == '5') then false
      else if mode == .zone &&
          (!(a == '2' && b == '5') && unhexChar a * 16 + unhexChar b ≠ ' '.toNat &&
            shouldEscape (Char.ofNat (unhexChar a * 16 + unhexChar b)) .host) then false
      else unescapeOk mode rest2
    | _ => false
  | '+' :: rest => unescapeOk mode rest
  | c :: rest =>
    if (mode == .host || mode == .zone) && c.toNat < 0x80 && shouldEscape c mode then false
    else unescapeOk mode rest

/-- Go `validOptionalPort`: empty, or `:` followed by digits only. -/
def validOptionalPort : GoStr → Bool
  | [] => true
  | ':' :: rest => rest.all isDigit09
  | _ => false

/-- The characters Go `validUserinfo` admits besides alphanumerics. -/
def userinfoExtra : GoStr := "-._:~!$&\x27()*+,;=%@".toList

/-- Go `validUserinfo`. -/
def validUserinfo (s : GoStr) : Bool :=
  s.all (fun c => isSchemeAlpha c || isDigit09 c || userinfoExtra.contains c)

/-- Index of the first occurrence of `pat` as a contiguous sublist, Go
`strings.Index`. -/
def indexOfSub (pat : GoStr) : GoStr → Option Nat
  | [] => if pat.isEmpty then some 0 else none
  | c :: rest =>
    if pat.isPrefixOf (c :: rest) then some 0
    else (indexOfSub pat rest).map (fun n => n + 1)

/-- Index of the last occurrence of a character, Go `strings.LastIndex`
with a one-character pattern. -/
def lastIndexOfChar (c : Char) (s : GoStr) : Option Nat :=
  (indexOfSub [c] s.reverse).map (fun i => s.length - 1 - i)

/-- Go `parseHost`: bracketed IP literals need a closing `]`, a valid
optional port, and (when a `%25` zone marker occurs before the `]`) the
three-way zone unescape; otherwise the last `:` must start a valid port;
finally the host must pass the host-mode unescape validation. -/
def parseHost (host : GoStr) : Bool :=
  if ['['].isPrefixOf host then
    match lastIndexOfChar ']' host with
    | none => false
    | some i =>
      if !validOptionalPort (host.drop (i + 1)) then false
      else
        match indexOfSub "%25".toList (host.take i) with
        | some zone =>
          unescapeOk .host (host.take zone) &&
          unescapeOk .zone ((host.take i).drop zone) &&
          unescapeOk .host (host.drop i)
        | none => unescapeOk .host host
  else
    match lastIndexOfChar ':' host with
    | none => unescapeOk .host host
    | some i =>
      if !validOptionalPort (host.drop i) then false
      else unescapeOk .host host

/-- Go `parseAuthority`: the part after the last `@` must parse as a host;
any userinfo before it must pass `validUserinfo` and the user-password
unescape checks (split at the first `:` when present). -/
def parseAuthority (authority : GoStr) : Bool :=
  match lastIndexOfChar '@' authority with
  | none => parseHost authority
  | some i =>
    if !parseHost (authority.drop (i + 1)) then false
    else
      let userinfo := authority.take i
      if !validUserinfo userinfo then false
      else if !(userinfo.contains ':') then unescapeOk .userPassword userinfo
      else
        let p := cutAtChar ':' userinfo
        unescapeOk .userPassword p.1 && unescapeOk .userPassword p.2

/-- Go `url.ParseRequestURI`, i.e. `parse(rawURL, viaRequest := true)`,
reduced to its accept/reject decision: control bytes and the empty string
are rejected; `*` is accepted; a rootless remainder is accepted exactly
when a scheme is present (it becomes the Opaque part); with a scheme and a
`//` prefix the authority is parsed; and the remaining path must pass the
path-mode unescape validation. -/
def parseRequestURI (rawURL : GoStr) : Bool :=
  if containsCTLByte rawURL then false
  else if rawURL.isEmpty then false
  else if rawURL = "*".toList then true
  else
    match getScheme rawURL with
    | none => false
    | some (scheme0, rest0) =>
      let scheme := scheme0.map Char.toLower
      let rest := restAfterQuerySplit rest0
      if !(['/'].isPrefixOf rest) then !scheme.isEmpty
      else if !scheme.isEmpty && ['/', '/'].isPrefixOf rest then
        let afterTwo := rest.drop 2
        let authority := (cutAtChar '/' afterTwo).1
        parseAuthority authority && unescapeOk .path (afterTwo.drop authority.length)
      else unescapeOk .path rest

end NetUrl

/-- Errors of the package (`manager.go`).  Every `newError` call in the
source passes one of these as the digested `PackageError`; the handler only
ever inspects that field, so the error value is modelled by its tag. -/
inductive PkgErr where
  | internalError
  | serverUnavailable
  | invalidDiagramFormat
  | invalidDiagramDescription
  | invalidPlantUMLAddress
deriving DecidableEq

/-- One outbound HTTP request of the client, recorded for the side-effect
trace (`http.PostForm` on the form endpoint, `http.Get` elsewhere). -/
inductive NetRequest where
  | postForm (link : GoStr) (text : GoStr)
  | get (link : GoStr)
deriving DecidableEq

/-- The remote renderer, as an oracle for the two kinds of HTTP calls the
client makes.  `postForm link text` yields `none` on an `http.PostForm`
error and otherwise the final status code together with the final
(post-redirect) request URL; `get link` yields `none` on an `http.Get`
error and otherwise the status code together with the response body. -/
structure RemoteRenderer where
  postForm : GoStr → GoStr → Option (Nat × GoStr)
  get : GoStr → Option (Nat × GoStr)

/-- The last `/`-separated segment of a URL string, as computed by
`getDiagramID` via `strings.Split` and indexing the last element. -/
def lastSegment (u : GoStr) : GoStr :=
  (splitOnChar '/' u).getLastD []

/-- `getDiagramID` of `manager.go`: POST the description as form data,
treat an `http.PostForm` error as `ErrInternalError`, a final status
outside {200, 400} as `ErrServerIsUnavailable`, and otherwise return the
last path segment of the final request URL. -/
def getDiagramID (net : RemoteRenderer) (link text : GoStr) : Except PkgErr GoStr :=
  match net.postForm link text with
  | none => .error .internalError
  | some (status, finalURL) =>
    if status ≠ 200 ∧ status ≠ 400 then .error .serverUnavailable
    else .ok (lastSegment finalURL)

/-- `downloadDiagram` of `manager.go`: GET the link, treat an `http.Get`
error as `ErrInternalError`, a status outside {200, 400} as
`ErrServerIsUnavailable`, and otherwise return the body together with the
flag recording whether the status was 400. -/
def downloadDiagram (net : RemoteRenderer) (link : GoStr) : Except PkgErr (GoStr × Bool) :=
  match net.get link with
  | none => .error .internalError
  | some (status, body) =>
    if status ≠ 200 ∧ status ≠ 400 then .error .serverUnavailable
    else .ok (body, status == 400)

/-- The three-value result of `Render` in `manager.go`:
`([]byte, *SyntaxError, error)`, each possibly nil. -/
structure RenderResult where
  file : Option GoStr
  syntaxErr : Option SyntaxError
  err : Option PkgErr
deriving DecidableEq

/-- `Render` of `manager.go`, together with the trace of outbound HTTP
requests it performs.  `DiagramFormat` is a Go `int` (TXT = 0, PNG = 1,
SVG = 2); any other value hits the `default` branch of the format switch. -/
def Render (net : RemoteRenderer) (serverAddr diagramDescription : GoStr) (format : Int) :
    RenderResult × List NetRequest :=
  let d := goTrim [' '] diagramDescription
  if d.length = 0 then (⟨none, none, some .invalidDiagramDescription⟩, [])
  else
    let formatURLPart? : Option GoStr :=
      if format = 0 then some "txt".toList
      else if format = 1 then some "png".toList
      else if format = 2 then some "svg".toList
      else none
    match formatURLPart? with
    | none => (⟨none, none, some .invalidDiagramFormat⟩, [])
    | some formatURLPart =>
      let link1 := serverAddr ++ "/form".toList
      match getDiagramID net link1 d with
      | .error e => (⟨none, none, some e⟩, [.postForm link1 d])
      | .ok imgID =>
        let link2 := serverAddr ++ "/txt/".toList ++ imgID
        match downloadDiagram net link2 with
        | .error e => (⟨none, none, some e⟩, [.postForm link1 d, .get link2])
        | .ok (diagramFile, hasSyntaxErr) =>
          match (if hasSyntaxErr then getErrorLineNumber diagramFile else none) with
          | some se =>
            (⟨none, some se, some .invalidDiagramDescription⟩, [.postForm link1 d, .get link2])
          | none =>
            if format = 0 then (⟨some diagramFile, none, none⟩, [.postForm link1 d, .get link2])
            else
              let link3 := serverAddr ++ "/".toList ++ formatURLPart ++ "/".toList ++ imgID
              match downloadDiagram net link3 with
              | .error e =>
                (⟨none, none, some e⟩, [.postForm link1 d, .get link2, .get link3])
              | .ok (f2, _) =>
                (⟨some f2, none, none⟩, [.postForm link1 d, .get link2, .get link3])

/-- The decoded JSON body of `POST /api/render-diagram`
(`prmsRenderDiagram` in `api/manager.go`). -/
structure Prms where
  data : GoStr
  format : GoStr
deriving DecidableEq

/-- The response the handler produces: either the raw artifact bytes with
HTTP 200, or the HTTP 500 JSON envelope with an `error_code` and an
optional `error_data` object carrying the three syntax-error fields. -/
inductive ApiResponse where
  | okBytes (body : GoStr)
  | errEnvelope (code : Int) (errData : Option SyntaxError)
deriving DecidableEq

/-- The format-string switch of `handlerRenderDiagram`: "svg", "png" and
"txt" map to the corresponding `DiagramFormat` constants, anything else to
the default error branch. -/
def handlerFormatCode (s : GoStr) : Option Int :=
  if s = "svg".toList then some 2
  else if s = "png".toList then some 1
  else if s = "txt".toList then some 0
  else none

/-- `handlerRenderDiagram` of `api/manager.go`.  The request body is
modelled post-decoding (`none` = JSON decode failure).  The overall result
is `none` exactly when the Go code dereferences a nil pointer: when
`Render` returns `ErrInvalidDiagramDescription` with a nil `*SyntaxError`,
the handler reads `syntaxErr.LineNumber` from the nil pointer and the
request dies in a runtime panic instead of producing a response. -/
def handlerRenderDiagram (net : RemoteRenderer) (serverAddr : GoStr) (body : Option Prms) :
    Option ApiResponse :=
  match body with
  | none => some (.errEnvelope 2 none)
  | some prms =>
    match handlerFormatCode prms.format with
    | none => some (.errEnvelope 4 none)
    | some format =>
      let res := (Render net serverAddr prms.data format).1
      match res.err with
      | some e =>
        if e = .invalidDiagramDescription then
          match res.syntaxErr with
          | some se => some (.errEnvelope 3 (some se))
          | none => none
        else some (.errEnvelope 4 none)
      | none => some (.okBytes (res.file.getD []))

/-- `NewManager` of `manager.go`: validate the server address with
`url.ParseRequestURI`; on failure return no manager and
`ErrInvalidPlantUMLAddress`, otherwise a manager holding the address. -/
def NewManager (plantUMLServerAddr : GoStr) : Option GoStr × Option PkgErr :=
  if NetUrl.parseRequestURI plantUMLServerAddr then (some plantUMLServerAddr, none)
  else (none, some .invalidPlantUMLAddress)

/-! Concrete remote-renderer behaviours used as test fixtures. -/

/-- A 400 plaintext-probe body carrying a recognizable syntax diagnostic,
first line `[From string (line 5) ]`, last line
` Syntax error: expected '@enduml'`. -/
def probeBody1 : GoStr :=
  "[From string (line 5) ]\n Syntax error: expected \x27@enduml\x27".toList

/-- Renderer whose form POST redirects to `.../abc123` and whose GETs all
answer 400 with `probeBody1`. -/
def net1 : RemoteRenderer :=
  ⟨fun _ _ => some (200, "http://srv/form/abc123".toList), fun _ => some (400, probeBody1)⟩

/-- Renderer whose GETs answer 400 with a body that does not start with the
syntax-diagnostic marker. -/
def net2 : RemoteRenderer :=
  ⟨fun _ _ => some (200, "http://srv/form/abc123".toList), fun _ => some (400, "oops".toList)⟩

/-- Renderer on which every HTTP call fails at the transport level. -/
def netDown : RemoteRenderer := ⟨fun _ _ => none, fun _ => none⟩

/-- Renderer whose probe succeeds with status 200 and body `TXT`. -/
def netOk : RemoteRenderer :=
  ⟨fun _ _ => some (200, "http://srv/form/abc123".toList), fun _ => some (200, "TXT".toList)⟩

/-- Renderer whose form POST completes with the unexpected status 500. -/
def netPost500 : RemoteRenderer :=
  ⟨fun _ _ => some (500, "http://srv/form/abc123".toList), fun _ => none⟩

/-- Renderer whose form POST succeeds but whose GETs all fail at the
transport level. -/
def netGetDown : RemoteRenderer :=
  ⟨fun _ _ => some (200, "http://srv/form/abc123".toList), fun _ => none⟩

/-- Renderer whose form POST succeeds but whose GETs all complete with the
unexpected status 500. -/
def netGet500 : RemoteRenderer :=
  ⟨fun _ _ => some (200, "http://srv/form/abc123".toList), fun _ => some (500, "E".toList)⟩

/-- Renderer on which the plaintext probe succeeds but the third,
format-specific GET fails at the transport level. -/
def netThirdDown : RemoteRenderer :=
  ⟨fun _ _ => some (200, "http://srv/form/abc123".toList),
   fun link => if link = "http://srv/txt/abc123".toList then some (200, "B".toList) else none⟩

/-- Renderer on which the plaintext probe succeeds but the third,
format-specific GET completes with the unexpected status 500. -/
def netThird500 : RemoteRenderer :=
  ⟨fun _ _ => some (200, "http://srv/form/abc123".toList),
   fun link =>
     if link = "http://srv/txt/abc123".toList then some (200, "B".toList)
     else some (500, "E".toList)⟩

/-! Helper lemmas. -/

/-- Go `strings.Split` never returns an empty slice: there is always at
least one piece, so indexing the first and last elements is safe. -/
theorem splitOnChar_ne_nil (sep : Char) (s : GoStr) : splitOnChar sep s ≠ [] := by
  induction s with
  | nil => simp [splitOnChar]
  | cons c rest ih =>
    unfold splitOnChar
    split
    · simp
    · split <;> simp

/-- A description that trims to the empty string is rejected before any
network call, with `ErrInvalidDiagramDescription` and no partial results. -/
theorem render_of_trim_empty (net : RemoteRenderer) (addr desc : GoStr) (format : Int)
    (h : goTrim [' '] desc = []) :
    Render net addr desc format =
      (⟨none, none, some PkgErr.invalidDiagramDescription⟩, []) := by
  unfold Render
  simp [h]

/-- A `SyntaxError` detail is only ever produced together with
`ErrInvalidDiagramDescription`: in every other branch of `Render` the
detail is nil. -/
theorem render_detail_only_invalid (net : RemoteRenderer) (addr desc : GoStr) (format : Int) :
    (Render net addr desc format).1.syntaxErr = none ∨
      (Render net addr desc format).1.err = some PkgErr.invalidDiagramDescription := by
  unfold Render
  dsimp only
  repeat' split
  all_goals simp

/-- The format switch of `Render` evaluated at `DiagramFormatPNG` (1). -/
theorem formatURLPart_png :
    (if (1 : Int) = 0 then some "txt".toList
     else if (1 : Int) = 1 then some "png".toList
     else if (1 : Int) = 2 then some "svg".toList else none) = some "png".toList := by
  decide

/-- The format switch of `Render` evaluated at `DiagramFormatSVG` (2). -/
theorem formatURLPart_svg :
    (if (2 : Int) = 0 then some "txt".toList
     else if (2 : Int) = 1 then some "png".toList
     else if (2 : Int) = 2 then some "svg".toList else none) = some "svg".toList := by
  decide

/-! Theorems for the claims. -/

/-- C9: description validation precedes format validation: whatever the
format value, including unrecognized ones, a description that trims to
empty yields `ErrInvalidDiagramDescription` (not the invalid-format error)
and no network call. -/
theorem c9_description_checked_before_format (net : RemoteRenderer) (addr desc : GoStr)
    (format : Int) (h : goTrim [' '] desc = []) :
    Render net addr desc format =
      (⟨none, none, some PkgErr.invalidDiagramDescription⟩, []) :=
  render_of_trim_empty net addr desc format h

/-- Witness for C9 at the one-space description and the unrecognized
format value 99. -/
theorem c9_description_checked_before_format_witness :
    goTrim [' '] " ".toList = [] ∧
    Render netDown "http://srv".toList " ".toList 99 =
      (⟨none, none, some PkgErr.invalidDiagramDescription⟩, []) :=
  ⟨by decide, c9_description_checked_before_format netDown "http://srv".toList " ".toList 99
    (by decide)⟩

/-- C10: the error-text parser is total: splitting on newlines always
yields at least one line (so reading the first and last line is safe), and
the parser returns nil exactly when the first line does not begin with the
marker `[From string (line `. -/
theorem c10_error_text_total (s : GoStr) :
    splitOnChar '\n' s ≠ [] ∧
    (getErrorLineNumber s = none ↔
      markerFromString.isPrefixOf ((splitOnChar '\n' s).headD []) = false) := by
  refine ⟨splitOnChar_ne_nil '\n' s, ?_⟩
  unfold getErrorLineNumber
  cases h : markerFromString.isPrefixOf ((splitOnChar '\n' s).headD [])
  · simp
  · cases hA : goAtoi (extractLineNumberText ((splitOnChar '\n' s).headD [])) <;> simp

/-- C8: when the first line starts with the marker but the trimmed text
between marker and trailer does not parse as an integer, the produced
`SyntaxError` has line number 0 while the offending-line text and the
verbatim raw body are still populated. -/
theorem c8_unparsable_line_number_zero (s : GoStr)
    (hm : markerFromString.isPrefixOf ((splitOnChar '\n' s).headD []) = true)
    (hp : goAtoi (extractLineNumberText ((splitOnChar '\n' s).headD [])) = none) :
    getErrorLineNumber s =
      some ⟨s, 0, trimmedLastLine ((splitOnChar '\n' s).getLastD [])⟩ := by
  unfold getErrorLineNumber
  rw [hm, hp]
  simp

/-- Witness for C8 at the body `[From string (line ) ]`, whose extracted
line-number text is empty and fails `strconv.Atoi`. -/
theorem c8_unparsable_line_number_zero_witness :
    goAtoi (extractLineNumberText
        ((splitOnChar '\n' "[From string (line ) ]".toList).headD [])) = none ∧
    getErrorLineNumber "[From string (line ) ]".toList =
      some ⟨"[From string (line ) ]".toList, 0,
        trimmedLastLine ((splitOnChar '\n' "[From string (line ) ]".toList).getLastD [])⟩ :=
  ⟨by decide, c8_unparsable_line_number_zero "[From string (line ) ]".toList (by decide)
    (by decide)⟩

/-- C1 (code bug): at the probe body whose first line is
`[From string (line 5) ]` and whose last line is
` Syntax error: expected '@enduml'`, the parsed line number is 5 and the
raw body is kept verbatim, but `strings.TrimLeft` with `" Syntax error: "`
is a character-set trim, so it also eats the leading `ex` of `expected`:
the offending-line text is `pected '@enduml'`, not the documented
`expected '@enduml'`.  The handler forwards exactly those values as
error_code 3. -/
theorem c1_cutset_trim_garbles_line_with_error :
    getErrorLineNumber probeBody1 =
      some ⟨probeBody1, 5, "pected \x27@enduml\x27".toList⟩ ∧
    handlerRenderDiagram net1 "http://srv".toList (some ⟨"a".toList, "txt".toList⟩) =
      some (ApiResponse.errEnvelope 3 (some ⟨probeBody1, 5, "pected \x27@enduml\x27".toList⟩)) :=
  ⟨by decide, by decide⟩

/-- C2 counterexample: with a 400 plaintext probe whose body `oops` lacks
the marker, `Render` for format TXT returns a Success artifact (the probe
body) with nil error — it does not surface any syntax-description
failure. -/
theorem c2_probe400_no_marker_returns_success :
    getErrorLineNumber "oops".toList = none ∧
    Render net2 "http://srv".toList "a".toList 0 =
      (⟨some "oops".toList, none, none⟩,
       [NetRequest.postForm "http://srv/form".toList "a".toList,
        NetRequest.get "http://srv/txt/abc123".toList]) :=
  ⟨by decide, by decide⟩

/-- C2 amended: when the plaintext probe answers 400 but the body's first
line does not begin with the marker, `Render` reports no syntax failure
and falls through to step 4; for format TXT it returns the probe body as a
Success artifact with nil error, after exactly the two network calls. -/
theorem c2_probe400_no_marker_falls_through (net : RemoteRenderer)
    (addr desc u body : GoStr) (s1 : Nat)
    (hd : goTrim [' '] desc ≠ [])
    (hpost : net.postForm (addr ++ "/form".toList) (goTrim [' '] desc) = some (s1, u))
    (hs1 : s1 = 200 ∨ s1 = 400)
    (hget : net.get (addr ++ "/txt/".toList ++ lastSegment u) = some (400, body))
    (hmk : getErrorLineNumber body = none) :
    Render net addr desc 0 =
      (⟨some body, none, none⟩,
       [NetRequest.postForm (addr ++ "/form".toList) (goTrim [' '] desc),
        NetRequest.get (addr ++ "/txt/".toList ++ lastSegment u)]) := by
  have hd0 : ¬ (goTrim [' '] desc).length = 0 := fun hlen => hd (List.length_eq_zero.mp hlen)
  have hgd : getDiagramID net (addr ++ "/form".toList) (goTrim [' '] desc) =
      .ok (lastSegment u) := by
    unfold getDiagramID
    rw [hpost]
    rcases hs1 with h1 | h1 <;> subst h1 <;> simp
  have hdd : downloadDiagram net (addr ++ "/txt/".toList ++ lastSegment u) =
      .ok (body, true) := by
    unfold downloadDiagram
    rw [hget]
    simp
  unfold Render
  dsimp only
  rw [if_neg hd0, hgd]
  dsimp only
  rw [hdd]
  simp [hmk]

/-- Witness for the amended C2 on the `net2` fixture. -/
theorem c2_probe400_no_marker_falls_through_witness :
    goTrim [' '] "a".toList ≠ [] ∧
    Render net2 "http://srv".toList "a".toList 0 =
      (⟨some "oops".toList, none, none⟩,
       [NetRequest.postForm ("http://srv".toList ++ "/form".toList) (goTrim [' '] "a".toList),
        NetRequest.get ("http://srv".toList ++ "/txt/".toList ++
          lastSegment "http://srv/form/abc123".toList)]) :=
  ⟨by decide,
    c2_probe400_no_marker_falls_through net2 "http://srv".toList "a".toList
      "http://srv/form/abc123".toList "oops".toList 200 (by decide) rfl (Or.inl rfl) rfl
      (by decide)⟩

/-- C3 (code bug): on the empty description, `Render` returns
`ErrInvalidDiagramDescription` with a nil `*SyntaxError`, and the handler
then reads `syntaxErr.LineNumber` from the nil pointer: the request panics
(modelled as `none`) instead of terminating normally with an error code. -/
theorem c3_nil_syntax_detail_crashes_handler :
    (Render net1 "http://srv".toList [] 0).1.err = some PkgErr.invalidDiagramDescription ∧
    (Render net1 "http://srv".toList [] 0).1.syntaxErr = none ∧
    handlerRenderDiagram net1 "http://srv".toList (some ⟨[], "txt".toList⟩) = none :=
  ⟨by decide, by decide, by decide⟩

/-- C4 counterexample: a description consisting of a single tab character
is NOT rejected — `strings.Trim(s, " ")` trims only spaces — so `Render`
proceeds to the network and does not return the invalid-description
failure. -/
theorem c4_tab_only_description_not_rejected :
    (Render net2 "http://srv".toList ['\t'] 0).1.err ≠ some PkgErr.invalidDiagramDescription ∧
    (Render net2 "http://srv".toList ['\t'] 0).2 ≠ [] := by
  decide

/-- C4 amended: for every description that is empty or consists only of
space characters (U+0020) — the only whitespace the code trims — `Render`
returns `ErrInvalidDiagramDescription` and makes no network call. -/
theorem c4_space_only_rejected_without_network (net : RemoteRenderer) (addr desc : GoStr)
    (format : Int) (hws : ∀ c ∈ desc, c = ' ') :
    Render net addr desc format =
      (⟨none, none, some PkgErr.invalidDiagramDescription⟩, []) := by
  have h1 : trimLeftCutset [' '] desc = [] := by
    unfold trimLeftCutset
    rw [List.dropWhile_eq_nil_iff]
    intro c hc
    rw [hws c hc]
    decide
  have htrim : goTrim [' '] desc = [] := by
    unfold goTrim
    rw [h1]
    rfl
  exact render_of_trim_empty net addr desc format htrim

/-- Witness for the amended C4 at a two-space description and format 3
(which is not even a recognized format value). -/
theorem c4_space_only_rejected_without_network_witness :
    (∀ c ∈ "  ".toList, c = ' ') ∧
    Render net2 "http://srv".toList "  ".toList 3 =
      (⟨none, none, some PkgErr.invalidDiagramDescription⟩, []) :=
  ⟨by decide, c4_space_only_rejected_without_network net2 "http://srv".toList "  ".toList 3
    (by decide)⟩

/-- C5 counterexample: a transport failure of the step-1 form POST yields
`ErrInternalError`, not the `ErrServerIsUnavailable` the claim names. -/
theorem c5_step1_transport_failure_is_internal_error :
    (Render netDown "http://srv".toList "a".toList 0).1.err = some PkgErr.internalError ∧
    (Render netDown "http://srv".toList "a".toList 0).1.err ≠ some PkgErr.serverUnavailable := by
  decide

/-- C5 amended, in eight parts covering every operational failure of the
three calls: (1) a transport failure of the step-1 form POST yields
`ErrInternalError` after that single call; (2) a step-1 final status
outside {200, 400} yields `ErrServerIsUnavailable`; (3) a transport
failure of the step-2 plaintext-probe GET yields `ErrInternalError` after
the two calls; (4) a step-2 status outside {200, 400} yields
`ErrServerIsUnavailable`; (5) a transport failure of the step-3
format-specific GET (formats PNG and SVG) yields `ErrInternalError` after
the three calls; (6) a step-3 status outside {200, 400} yields
`ErrServerIsUnavailable`; (7) an `ErrInternalError` or
`ErrServerIsUnavailable` outcome never carries a `SyntaxError` detail —
operational failures are never syntax failures; (8) the handler maps any
such outcome to error_code 4 with no detail. -/
theorem c5_operational_failure_mapping :
    (∀ (net : RemoteRenderer) (addr desc : GoStr) (format : Int),
      goTrim [' '] desc ≠ [] →
      (format = 0 ∨ format = 1 ∨ format = 2) →
      net.postForm (addr ++ "/form".toList) (goTrim [' '] desc) = none →
      Render net addr desc format =
        (⟨none, none, some PkgErr.internalError⟩,
         [NetRequest.postForm (addr ++ "/form".toList) (goTrim [' '] desc)])) ∧
    (∀ (net : RemoteRenderer) (addr desc u : GoStr) (format : Int) (s1 : Nat),
      goTrim [' '] desc ≠ [] →
      (format = 0 ∨ format = 1 ∨ format = 2) →
      net.postForm (addr ++ "/form".toList) (goTrim [' '] desc) = some (s1, u) →
      s1 ≠ 200 → s1 ≠ 400 →
      Render net addr desc format =
        (⟨none, none, some PkgErr.serverUnavailable⟩,
         [NetRequest.postForm (addr ++ "/form".toList) (goTrim [' '] desc)])) ∧
    (∀ (net : RemoteRenderer) (addr desc u : GoStr) (format : Int) (s1 : Nat),
      goTrim [' '] desc ≠ [] →
      (format = 0 ∨ format = 1 ∨ format = 2) →
      net.postForm (addr ++ "/form".toList) (goTrim [' '] desc) = some (s1, u) →
      (s1 = 200 ∨ s1 = 400) →
      net.get (addr ++ "/txt/".toList ++ lastSegment u) = none →
      Render net addr desc format =
        (⟨none, none, some PkgErr.internalError⟩,
         [NetRequest.postForm (addr ++ "/form".toList) (goTrim [' '] desc),
          NetRequest.get (addr ++ "/txt/".toList ++ lastSegment u)])) ∧
    (∀ (net : RemoteRenderer) (addr desc u body : GoStr) (format : Int) (s1 s2 : Nat),
      goTrim [' '] desc ≠ [] →
      (format = 0 ∨ format = 1 ∨ format = 2) →
      net.postForm (addr ++ "/form".toList) (goTrim [' '] desc) = some (s1, u) →
      (s1 = 200 ∨ s1 = 400) →
      net.get (addr ++ "/txt/".toList ++ lastSegment u) = some (s2, body) →
      s2 ≠ 200 → s2 ≠ 400 →
      Render net addr desc format =
        (⟨none, none, some PkgErr.serverUnavailable⟩,
         [NetRequest.postForm (addr ++ "/form".toList) (goTrim [' '] desc),
          NetRequest.get (addr ++ "/txt/".toList ++ lastSegment u)])) ∧
    (∀ (net : RemoteRenderer) (addr desc fp u body : GoStr) (format : Int) (s1 s2 : Nat),
      goTrim [' '] desc ≠ [] →
      ((format = 1 ∧ fp = "png".toList) ∨ (format = 2 ∧ fp = "svg".toList)) →
      net.postForm (addr ++ "/form".toList) (goTrim [' '] desc) = some (s1, u) →
      (s1 = 200 ∨ s1 = 400) →
      net.get (addr ++ "/txt/".toList ++ lastSegment u) = some (s2, body) →
      (s2 = 200 ∨ (s2 = 400 ∧ getErrorLineNumber body = none)) →
      net.get (addr ++ "/".toList ++ fp ++ "/".toList ++ lastSegment u) = none →
      Render net addr desc format =
        (⟨none, none, some PkgErr.internalError⟩,
         [NetRequest.postForm (addr ++ "/form".toList) (goTrim [' '] desc),
          NetRequest.get (addr ++ "/txt/".toList ++ lastSegment u),
          NetRequest.get (addr ++ "/".toList ++ fp ++ "/".toList ++ lastSegment u)])) ∧
    (∀ (net : RemoteRenderer) (addr desc fp u body b3 : GoStr) (format : Int) (s1 s2 s3 : Nat),
      goTrim [' '] desc ≠ [] →
      ((format = 1 ∧ fp = "png".toList) ∨ (format = 2 ∧ fp = "svg".toList)) →
      net.postForm (addr ++ "/form".toList) (goTrim [' '] desc) = some (s1, u) →
      (s1 = 200 ∨ s1 = 400) →
      net.get (addr ++ "/txt/".toList ++ lastSegment u) = some (s2, body) →
      (s2 = 200 ∨ (s2 = 400 ∧ getErrorLineNumber body = none)) →
      net.get (addr ++ "/".toList ++ fp ++ "/".toList ++ lastSegment u) = some (s3, b3) →
      s3 ≠ 200 → s3 ≠ 400 →
      Render net addr desc format =
        (⟨none, none, some PkgErr.serverUnavailable⟩,
         [NetRequest.postForm (addr ++ "/form".toList) (goTrim [' '] desc),
          NetRequest.get (addr ++ "/txt/".toList ++ lastSegment u),
          NetRequest.get (addr ++ "/".toList ++ fp ++ "/".toList ++ lastSegment u)])) ∧
    (∀ (net : RemoteRenderer) (addr desc : GoStr) (format : Int),
      ((Render net addr desc format).1.err = some PkgErr.internalError ∨
       (Render net addr desc format).1.err = some PkgErr.serverUnavailable) →
      (Render net addr desc format).1.syntaxErr = none) ∧
    (∀ (net : RemoteRenderer) (addr : GoStr) (prms : Prms) (fc : Int),
      handlerFormatCode prms.format = some fc →
      ((Render net addr prms.data fc).1.err = some PkgErr.internalError ∨
       (Render net addr prms.data fc).1.err = some PkgErr.serverUnavailable) →
      handlerRenderDiagram net addr (some prms) = some (ApiResponse.errEnvelope 4 none)) := by
  refine ⟨?_, ?_, ?_, ?_, ?_, ?_, ?_, ?_⟩
  · intro net addr desc format hd hf hpost
    have hd0 : ¬ (goTrim [' '] desc).length = 0 := fun hlen => hd (List.length_eq_zero.mp hlen)
    have hgd : getDiagramID net (addr ++ "/form".toList) (goTrim [' '] desc) =
        .error PkgErr.internalError := by
      unfold getDiagramID
      rw [hpost]
    rcases hf with h | h | h <;> subst h <;>
      (unfold Render; dsimp only; rw [if_neg hd0, hgd]; simp)
  · intro net addr desc u format s1 hd hf hpost h200 h400
    have hd0 : ¬ (goTrim [' '] desc).length = 0 := fun hlen => hd (List.length_eq_zero.mp hlen)
    have hgd : getDiagramID net (addr ++ "/form".toList) (goTrim [' '] desc) =
        .error PkgErr.serverUnavailable := by
      unfold getDiagramID
      rw [hpost]
      simp [h200, h400]
    rcases hf with h | h | h <;> subst h <;>
      (unfold Render; dsimp only; rw [if_neg hd0, hgd]; simp)
  · intro net addr desc u format s1 hd hf hpost hs1 hget2
    have hd0 : ¬ (goTrim [' '] desc).length = 0 := fun hlen => hd (List.length_eq_zero.mp hlen)
    have hgd : getDiagramID net (addr ++ "/form".toList) (goTrim [' '] desc) =
        .ok (lastSegment u) := by
      unfold getDiagramID
      rw [hpost]
      rcases hs1 with h1 | h1 <;> subst h1 <;> simp
    have hdd : downloadDiagram net (addr ++ "/txt/".toList ++ lastSegment u) =
        .error PkgErr.internalError := by
      unfold downloadDiagram
      rw [hget2]
    rcases hf with h | h | h <;> subst h <;>
      (unfold Render; dsimp only; rw [if_neg hd0, hgd]; dsimp only; rw [hdd]; simp)
  · intro net addr desc u body format s1 s2 hd hf hpost hs1 hget2 h200 h400
    have hd0 : ¬ (goTrim [' '] desc).length = 0 := fun hlen => hd (List.length_eq_zero.mp hlen)
    have hgd : getDiagramID net (addr ++ "/form".toList) (goTrim [' '] desc) =
        .ok (lastSegment u) := by
      unfold getDiagramID
      rw [hpost]
      rcases hs1 with h1 | h1 <;> subst h1 <;> simp
    have hdd : downloadDiagram net (addr ++ "/txt/".toList ++ lastSegment u) =
        .error PkgErr.serverUnavailable := by
      unfold downloadDiagram
      rw [hget2]
      simp [h200, h400]
    rcases hf with h | h | h <;> subst h <;>
      (unfold Render; dsimp only; rw [if_neg hd0, hgd]; dsimp only; rw [hdd]; simp)
  · intro net addr desc fp u body format s1 s2 hd hf hpost hs1 hget2 hs2 hget3
    have hd0 : ¬ (goTrim [' '] desc).length = 0 := fun hlen => hd (List.length_eq_zero.mp hlen)
    have hgd : getDiagramID net (addr ++ "/form".toList) (goTrim [' '] desc) =
        .ok (lastSegment u) := by
      unfold getDiagramID
      rw [hpost]
      rcases hs1 with h1 | h1 <;> subst h1 <;> simp
    have hdd3 : downloadDiagram net (addr ++ "/".toList ++ fp ++ "/".toList ++ lastSegment u) =
        .error PkgErr.internalError := by
      unfold downloadDiagram
      rw [hget3]
    rcases hs2 with h2 | ⟨h2, hmk⟩ <;> subst h2
    · have hdd2 : downloadDiagram net (addr ++ "/txt/".toList ++ lastSegment u) =
          .ok (body, false) := by
        unfold downloadDiagram
        rw [hget2]
        simp
      rcases hf with ⟨h1, hfp⟩ | ⟨h1, hfp⟩ <;> subst h1 <;> subst hfp <;>
        (unfold Render; dsimp only; rw [if_neg hd0, hgd]; dsimp only; rw [hdd2]; dsimp only;
         (first
          | rw [formatURLPart_png]
          | rw [formatURLPart_svg]);
         dsimp only; rw [hdd3]; simp)
    · have hdd2 : downloadDiagram net (addr ++ "/txt/".toList ++ lastSegment u) =
          .ok (body, true) := by
        unfold downloadDiagram
        rw [hget2]
        simp
      rcases hf with ⟨h1, hfp⟩ | ⟨h1, hfp⟩ <;> subst h1 <;> subst hfp <;>
        (unfold Render; dsimp only; rw [if_neg hd0, hgd]; dsimp only; rw [hdd2]; dsimp only;
         rw [hmk];
         (first
          | rw [formatURLPart_png]
          | rw [formatURLPart_svg]);
         dsimp only; rw [hdd3]; simp)
  · intro net addr desc fp u body b3 format s1 s2 s3 hd hf hpost hs1 hget2 hs2 hget3 h200 h400
    have hd0 : ¬ (goTrim [' '] desc).length = 0 := fun hlen => hd (List.length_eq_zero.mp hlen)
    have hgd : getDiagramID net (addr ++ "/form".toList) (goTrim [' '] desc) =
        .ok (lastSegment u) := by
      unfold getDiagramID
      rw [hpost]
      rcases hs1 with h1 | h1 <;> subst h1 <;> simp
    have hdd3 : downloadDiagram net (addr ++ "/".toList ++ fp ++ "/".toList ++ lastSegment u) =
        .error PkgErr.serverUnavailable := by
      unfold downloadDiagram
      rw [hget3]
      simp [h200, h400]
    rcases hs2 with h2 | ⟨h2, hmk⟩ <;> subst h2
    · have hdd2 : downloadDiagram net (addr ++ "/txt/".toList ++ lastSegment u) =
          .ok (body, false) := by
        unfold downloadDiagram
        rw [hget2]
        simp
      rcases hf with ⟨h1, hfp⟩ | ⟨h1, hfp⟩ <;> subst h1 <;> subst hfp <;>
        (unfold Render; dsimp only; rw [if_neg hd0, hgd]; dsimp only; rw [hdd2]; dsimp only;
         (first
          | rw [formatURLPart_png]
          | rw [formatURLPart_svg]);
         dsimp only; rw [hdd3]; simp)
    · have hdd2 : downloadDiagram net (addr ++ "/txt/".toList ++ lastSegment u) =
          .ok (body, true) := by
        unfold downloadDiagram
        rw [hget2]
        simp
      rcases hf with ⟨h1, hfp⟩ | ⟨h1, hfp⟩ <;> subst h1 <;> subst hfp <;>
        (unfold Render; dsimp only; rw [if_neg hd0, hgd]; dsimp only; rw [hdd2]; dsimp only;
         rw [hmk];
         (first
          | rw [formatURLPart_png]
          | rw [formatURLPart_svg]);
         dsimp only; rw [hdd3]; simp)
  · intro net addr desc format h
    rcases render_detail_only_invalid net addr desc format with h2 | h2
    · exact h2
    · rcases h with h | h <;> exact absurd (h2.symm.trans h) (by decide)
  · intro net addr prms fc hfc herr
    unfold handlerRenderDiagram
    dsimp only
    rw [hfc]
    dsimp only
    rcases herr with h | h <;> rw [h] <;> simp

/-- Witness for the amended C5, exercising each of the eight parts on a
concrete fixture: a step-1 transport failure, a step-1 status 500, a
step-2 transport failure, a step-2 status 500, a step-3 transport failure,
a step-3 status 500, the no-detail guarantee, and the handler's
error_code 4. -/
theorem c5_operational_failure_mapping_witness :
    Render netDown "http://srv".toList "a".toList 0 =
      (⟨none, none, some PkgErr.internalError⟩,
       [NetRequest.postForm ("http://srv".toList ++ "/form".toList) (goTrim [' '] "a".toList)]) ∧
    Render netPost500 "http://srv".toList "a".toList 1 =
      (⟨none, none, some PkgErr.serverUnavailable⟩,
       [NetRequest.postForm ("http://srv".toList ++ "/form".toList) (goTrim [' '] "a".toList)]) ∧
    Render netGetDown "http://srv".toList "a".toList 0 =
      (⟨none, none, some PkgErr.internalError⟩,
       [NetRequest.postForm ("http://srv".toList ++ "/form".toList) (goTrim [' '] "a".toList),
        NetRequest.get ("http://srv".toList ++ "/txt/".toList ++
          lastSegment "http://srv/form/abc123".toList)]) ∧
    Render netGet500 "http://srv".toList "a".toList 2 =
      (⟨none, none, some PkgErr.serverUnavailable⟩,
       [NetRequest.postForm ("http://srv".toList ++ "/form".toList) (goTrim [' '] "a".toList),
        NetRequest.get ("http://srv".toList ++ "/txt/".toList ++
          lastSegment "http://srv/form/abc123".toList)]) ∧
    Render netThirdDown "http://srv".toList "a".toList 1 =
      (⟨none, none, some PkgErr.internalError⟩,
       [NetRequest.postForm ("http://srv".toList ++ "/form".toList) (goTrim [' '] "a".toList),
        NetRequest.get ("http://srv".toList ++ "/txt/".toList ++
          lastSegment "http://srv/form/abc123".toList),
        NetRequest.get ("http://srv".toList ++ "/".toList ++ "png".toList ++ "/".toList ++
          lastSegment "http://srv/form/abc123".toList)]) ∧
    Render netThird500 "http://srv".toList "a".toList 2 =
      (⟨none, none, some PkgErr.serverUnavailable⟩,
       [NetRequest.postForm ("http://srv".toList ++ "/form".toList) (goTrim [' '] "a".toList),
        NetRequest.get ("http://srv".toList ++ "/txt/".toList ++
          lastSegment "http://srv/form/abc123".toList),
        NetRequest.get ("http://srv".toList ++ "/".toList ++ "svg".toList ++ "/".toList ++
          lastSegment "http://srv/form/abc123".toList)]) ∧
    (Render netDown "http://srv".toList "a".toList 1).1.syntaxErr = none ∧
    handlerRenderDiagram netDown "http://srv".toList (some ⟨"a".toList, "png".toList⟩) =
      some (ApiResponse.errEnvelope 4 none) :=
  ⟨c5_operational_failure_mapping.1 netDown "http://srv".toList "a".toList 0 (by decide)
      (Or.inl rfl) rfl,
    c5_operational_failure_mapping.2.1 netPost500 "http://srv".toList "a".toList
      "http://srv/form/abc123".toList 1 500 (by decide) (Or.inr (Or.inl rfl)) rfl (by decide)
      (by decide),
    c5_operational_failure_mapping.2.2.1 netGetDown "http://srv".toList "a".toList
      "http://srv/form/abc123".toList 0 200 (by decide) (Or.inl rfl) rfl (Or.inl rfl) rfl,
    c5_operational_failure_mapping.2.2.2.1 netGet500 "http://srv".toList "a".toList
      "http://srv/form/abc123".toList "E".toList 2 200 500 (by decide)
      (Or.inr (Or.inr rfl)) rfl (Or.inl rfl) rfl (by decide) (by decide),
    c5_operational_failure_mapping.2.2.2.2.1 netThirdDown "http://srv".toList "a".toList
      "png".toList "http://srv/form/abc123".toList "B".toList 1 200 200 (by decide)
      (Or.inl ⟨rfl, rfl⟩) rfl (Or.inl rfl) (by decide) (Or.inl rfl) (by decide),
    c5_operational_failure_mapping.2.2.2.2.2.1 netThird500 "http://srv".toList "a".toList
      "svg".toList "http://srv/form/abc123".toList "B".toList "E".toList 2 200 200 500
      (by decide) (Or.inr ⟨rfl, rfl⟩) rfl (Or.inl rfl) (by decide) (Or.inl rfl) (by decide)
      (by decide) (by decide),
    c5_operational_failure_mapping.2.2.2.2.2.2.1 netDown "http://srv".toList "a".toList 1
      (Or.inl (by decide)),
    c5_operational_failure_mapping.2.2.2.2.2.2.2 netDown "http://srv".toList
      ⟨"a".toList, "png".toList⟩ 1 (by decide) (Or.inl (by decide))⟩

/-- C6 counterexample: `url.ParseRequestURI` also accepts a rooted path
with no scheme, so `NewManager "/x"` succeeds and returns a usable
manager, contradicting "any address without a scheme fails". -/
theorem c6_schemeless_rooted_path_accepted :
    NewManager "/x".toList = (some "/x".toList, none) := by
  decide

/-- C6 amended: `NewManager` fails immediately with
`ErrInvalidPlantUMLAddress` (and returns no manager) for the empty string
and for a rootless scheme-less address such as `foo`; it succeeds for an
absolute URL and also for a scheme-less rooted path such as `/x` — the
validator accepts absolute URIs and rooted paths, not absolute URLs
only. -/
theorem c6_address_validation :
    NewManager [] = (none, some PkgErr.invalidPlantUMLAddress) ∧
    NewManager "foo".toList = (none, some PkgErr.invalidPlantUMLAddress) ∧
    NewManager "/x".toList = (some "/x".toList, none) ∧
    NewManager "http://localhost:8080".toList =
      (some "http://localhost:8080".toList, none) :=
  ⟨by decide, by decide, by decide, by decide⟩

/-- C7: for a TXT-format call that reaches step 4 — the POST and the
plaintext probe both complete with an allowed status and no syntax error
is detected — `Render` performs exactly the two network calls (no third,
format-specific fetch) and returns the probe body verbatim as the Success
artifact. -/
theorem c7_txt_no_third_call (net : RemoteRenderer) (addr desc u body : GoStr) (s1 s2 : Nat)
    (hd : goTrim [' '] desc ≠ [])
    (hpost : net.postForm (addr ++ "/form".toList) (goTrim [' '] desc) = some (s1, u))
    (hs1 : s1 = 200 ∨ s1 = 400)
    (hget : net.get (addr ++ "/txt/".toList ++ lastSegment u) = some (s2, body))
    (hs2 : s2 = 200 ∨ (s2 = 400 ∧ getErrorLineNumber body = none)) :
    Render net addr desc 0 =
      (⟨some body, none, none⟩,
       [NetRequest.postForm (addr ++ "/form".toList) (goTrim [' '] desc),
        NetRequest.get (addr ++ "/txt/".toList ++ lastSegment u)]) := by
  have hd0 : ¬ (goTrim [' '] desc).length = 0 := fun hlen => hd (List.length_eq_zero.mp hlen)
  have hgd : getDiagramID net (addr ++ "/form".toList) (goTrim [' '] desc) =
      .ok (lastSegment u) := by
    unfold getDiagramID
    rw [hpost]
    rcases hs1 with h1 | h1 <;> subst h1 <;> simp
  rcases hs2 with h2 | ⟨h2, hmk⟩ <;> subst h2
  · have hdd : downloadDiagram net (addr ++ "/txt/".toList ++ lastSegment u) =
        .ok (body, false) := by
      unfold downloadDiagram
      rw [hget]
      simp
    unfold Render
    dsimp only
    rw [if_neg hd0, hgd]
    dsimp only
    rw [hdd]
    simp
  · have hdd : downloadDiagram net (addr ++ "/txt/".toList ++ lastSegment u) =
        .ok (body, true) := by
      unfold downloadDiagram
      rw [hget]
      simp
    unfold Render
    dsimp only
    rw [if_neg hd0, hgd]
    dsimp only
    rw [hdd]
    simp [hmk]

/-- Witness for C7 on the 200-probe fixture. -/
theorem c7_txt_no_third_call_witness :
    goTrim [' '] "a".toList ≠ [] ∧
    Render netOk "http://srv".toList "a".toList 0 =
      (⟨some "TXT".toList, none, none⟩,
       [NetRequest.postForm ("http://srv".toList ++ "/form".toList) (goTrim [' '] "a".toList),
        NetRequest.get ("http://srv".toList ++ "/txt/".toList ++
          lastSegment "http://srv/form/abc123".toList)]) :=
  ⟨by decide,
    c7_txt_no_third_call netOk "http://srv".toList "a".toList
      "http://srv/form/abc123".toList "TXT".toList 200 200 (by decide) rfl (Or.inl rfl) rfl
      (Or.inl rfl)⟩

end Plantuml
